import Mathlib

/-!
Shallow embedding of `src/app.py` (a Streamlit YouTube/Facebook audio
downloader and transcriber) for checking its natural-language specification.

Modelling conventions:
* Python `float` arithmetic is modelled exactly over `ℚ` (byte counts are
  modelled as `ℕ`); rounding of binary floating point is idealised away.
* The two external collaborators (`yt_dlp` and `whisper`) are opaque: their
  outcomes are inputs of the run model (`Externals`).
* The filesystem is a list of existing paths together with a log of every
  `os.remove` call, so that "removed exactly once" is expressible.
* Streamlit UI handles (`st.progress`, `st.empty`, `st.error`, ...) are
  modelled as observable outputs of the run.
-/

/-- Python `int(q)` on a real value: truncation toward zero. -/
def pyint (q : ℚ) : Int :=
  if 0 ≤ q then ⌊q⌋ else ⌈q⌉

/-- Python float `a // b`: floor division, returning the floor as a number. -/
def pyfloordiv (a b : ℚ) : ℚ :=
  ((⌊a / b⌋ : Int) : ℚ)

/-- Python float `a % b` for `b ≠ 0`: `a - b * (a // b)`. -/
def pymod (a b : ℚ) : ℚ :=
  a - b * ((⌊a / b⌋ : Int) : ℚ)

/-- Python `f"{n:02d}"`: decimal rendering zero-padded to width 2. -/
def zfill2 (n : Int) : String :=
  if 0 ≤ n ∧ n < 10 then "0" ++ toString n else toString n

/-- `format_timestamp` from `src/app.py` (lines 107-110):
`mm = int(sec // 60); ss = int(sec % 60); return f"[{mm:02d}:{ss:02d}]"`. -/
def format_timestamp (sec : ℚ) : String :=
  "[" ++ zfill2 (pyint (pyfloordiv sec 60)) ++ ":" ++ zfill2 (pyint (pymod sec 60)) ++ "]"

/-- Python `c.isspace()` restricted to the ASCII whitespace characters that
`str.strip()` removes (the Unicode space classes are not exercised here). -/
def pyIsSpace (c : Char) : Bool :=
  c = ' ' || c = '\t' || c = '\n' || c = '\x0d' || c = '\x0b' || c = '\x0c'

/-- Python `s.strip()`: drop leading and trailing whitespace characters. -/
def pyStrip (s : String) : String :=
  String.mk (((s.data.dropWhile pyIsSpace).reverse.dropWhile pyIsSpace).reverse)

/-- Python `sep.join(parts)`. -/
def pyJoin (sep : String) : List String → String
  | [] => ""
  | [x] => x
  | x :: y :: xs => x ++ sep ++ pyJoin sep (y :: xs)

/-- One transcriber segment (`result["segments"]` entry): start offset in
seconds and raw text. -/
structure Segment where
  start : ℚ
  text : String
deriving DecidableEq

/-- One line of the transcript (`src/app.py` lines 114-121): the stripped
segment text, with `format_timestamp(start) + " "` prepended when
`include_timestamps` is set. -/
def lineOf (include_timestamps : Bool) (seg : Segment) : String :=
  if include_timestamps then
    format_timestamp seg.start ++ " " ++ pyStrip seg.text
  else
    pyStrip seg.text

/-- The transcript assembly loop of `src/app.py` (lines 112-123):
build one line per segment and join with `"\n"`. -/
def assemble_transcript (include_timestamps : Bool) (segs : List Segment) : String :=
  pyJoin "\n" (segs.map (lineOf include_timestamps))

/-! ## Download progress hook (`src/app.py` lines 56-66) -/

/-- The `d['status']` values a yt-dlp progress hook can receive. -/
inductive DStatus where
  | downloading
  | finished
  | other
deriving DecidableEq

/-- A progress event dictionary, after `d.get(key, 0)` defaulting: an absent
byte count is indistinguishable from `0`. -/
structure ProgressEvent where
  status : DStatus
  total_bytes : Nat
  total_bytes_estimate : Nat
  downloaded_bytes : Nat
deriving DecidableEq

/-- `d.get('total_bytes', 0) or d.get('total_bytes_estimate', 0)`:
`0` is falsy, so a zero `total_bytes` falls through to the estimate. -/
def resolved_total (d : ProgressEvent) : Nat :=
  if d.total_bytes ≠ 0 then d.total_bytes else d.total_bytes_estimate

/-- The UI handles the hook mutates: the progress-bar value (initialised by
`st.progress(0)`) and the status placeholder text. -/
structure UIState where
  progress : Nat
  status : Option String
deriving DecidableEq

/-- Initial UI state of a run: `progress_bar = st.progress(0)`, empty status. -/
def initUI : UIState := { progress := 0, status := none }

/-- `download_progress_hook` from `src/app.py` (lines 56-66), as a step on the
UI state; the second component is the list of values passed to
`progress_bar.progress` by this call (the surfaced percentages).
`int((downloaded / total) * 100)` is modelled exactly as `downloaded * 100 / total`
(natural floor division). -/
def download_progress_hook (ui : UIState) (d : ProgressEvent) : UIState × List Nat :=
  match d.status with
  | .downloading =>
      let total := resolved_total d
      let downloaded := d.downloaded_bytes
      if 0 < total then
        let percentage := downloaded * 100 / total
        ({ progress := min percentage 100,
           status := some ("Downloading: " ++ toString percentage ++ "%") },
         [min percentage 100])
      else (ui, [])
  | .finished =>
      ({ progress := 100, status := some "Download complete!" }, [100])
  | .other => (ui, [])

/-- Run the hook over a whole event stream, accumulating every value surfaced
to the progress bar, in order. -/
def hook_run (ui : UIState) : List ProgressEvent → UIState × List Nat
  | [] => (ui, [])
  | d :: ds =>
      let step := download_progress_hook ui d
      let rest := hook_run step.1 ds
      (rest.1, step.2 ++ rest.2)

/-- The percentages surfaced to the progress bar over one run. -/
def reported (events : List ProgressEvent) : List Nat :=
  (hook_run initUI events).2

/-- The percentages a single event surfaces, independent of any UI state. -/
def event_emissions (d : ProgressEvent) : List Nat :=
  match d.status with
  | .downloading =>
      if 0 < resolved_total d then
        [min (d.downloaded_bytes * 100 / resolved_total d) 100]
      else []
  | .finished => [100]
  | .other => []

theorem hook_emissions_stateless (ui : UIState) (d : ProgressEvent) :
    (download_progress_hook ui d).2 = event_emissions d := by
  cases d with
  | mk status tb tbe db =>
      cases status with
      | downloading =>
          simp only [download_progress_hook, event_emissions]
          split <;> rfl
      | finished => rfl
      | other => rfl

theorem hook_run_emissions (ui : UIState) (events : List ProgressEvent) :
    (hook_run ui events).2 = events.flatMap event_emissions := by
  induction events generalizing ui with
  | nil => rfl
  | cons d ds ih =>
      simp [hook_run, hook_emissions_stateless, ih]

theorem reported_eq_flatMap (events : List ProgressEvent) :
    reported events = events.flatMap event_emissions :=
  hook_run_emissions initUI events

/-! ## Run orchestration (`main` button handler, `src/app.py` lines 28-150) -/

/-- The filesystem, as the set of existing paths plus a log of every
`os.remove` call made during the run. -/
structure FS where
  files : List String
  removed : List String
deriving DecidableEq

/-- `os.path.exists(p)`. -/
def FS.existsFile (fs : FS) (p : String) : Bool :=
  decide (p ∈ fs.files)

/-- `open(p, 'w').write(...)`: create (or overwrite) the file at `p`. -/
def FS.write (fs : FS) (p : String) : FS :=
  if p ∈ fs.files then fs else { fs with files := p :: fs.files }

/-- `os.remove(p)`: drop the path and log the removal. -/
def FS.removeFile (fs : FS) (p : String) : FS :=
  { files := fs.files.erase p, removed := fs.removed ++ [p] }

/-- The user inputs of one button-triggered run. `cookie_file` is the content
of the optional cookies upload (`none` = no upload). -/
structure RunInputs where
  url : String
  cookie_file : Option String
  save_audio : Bool
  do_transcribe : Bool
  include_timestamps : Bool
deriving DecidableEq

deriving instance DecidableEq for Except

/-- Outcomes of the two external collaborators for this run: the yt-dlp
download call and the whisper transcription call. -/
structure Externals where
  download_result : Except String Unit
  transcribe_result : Except String (List Segment)
deriving DecidableEq

/-- The observables of one run: final filesystem, `st.error` messages, which
external collaborators were invoked, the transcript string, whether the
transcript area and download button were rendered, and whether the
"Processing complete!" status was reached. -/
structure RunResult where
  fs : FS
  errors : List String
  downloader_invoked : Bool
  transcriber_invoked : Bool
  transcript : String
  transcript_shown : Bool
  processing_complete : Bool
deriving DecidableEq

/-- `os.path.join(output_dir, "cookies_temp.txt")` with `output_dir = "downloads"`. -/
def cookie_temp_path : String := "downloads/cookies_temp.txt"

/-- `if cookie_path and os.path.exists(cookie_path): os.remove(cookie_path)`
(`src/app.py` lines 81-82, 127-128, 149-150). -/
def cleanup_cookie (cookie_path : Option String) (fs : FS) : FS :=
  match cookie_path with
  | some p => if fs.existsFile p then fs.removeFile p else fs
  | none => fs

/-- The cookie path staged for the run: `cookies_temp.txt` in the output
directory when an upload was supplied (`src/app.py` lines 45-50). -/
def staged_cookie_path (inp : RunInputs) : Option String :=
  inp.cookie_file.map (fun _ => cookie_temp_path)

/-- The filesystem after cookie staging: the upload content is written to
`cookie_temp_path` when present (`src/app.py` lines 46-49). -/
def staged_fs (inp : RunInputs) (fs0 : FS) : FS :=
  match inp.cookie_file with
  | some _ => fs0.write cookie_temp_path
  | none => fs0

/-- The tail of the success path (`src/app.py` lines 131-150): optional audio
cleanup, completion status, transcript display, cookie cleanup. -/
def finish_run (inp : RunInputs) (cookie_path : Option String) (mp3_file : String)
    (fs : FS) (t : String) (tinv : Bool) : RunResult :=
  { fs := cleanup_cookie cookie_path
      (if !inp.save_audio && fs.existsFile mp3_file then fs.removeFile mp3_file else fs)
    errors := []
    downloader_invoked := true
    transcriber_invoked := tinv
    transcript := t
    transcript_shown := t != ""
    processing_complete := true }

/-- The button-click body of `main` (`src/app.py` lines 28-150).
`mp3_file` is the artifact path yt-dlp derives from the video title (an input
of the model); a successful download materialises it. The external calls are
assumed not to touch the cookie file. -/
def runMain (inp : RunInputs) (ext : Externals) (mp3_file : String) (fs0 : FS) : RunResult :=
  if pyStrip inp.url = "" then
    { fs := fs0
      errors := ["Please enter a valid video URL."]
      downloader_invoked := false
      transcriber_invoked := false
      transcript := ""
      transcript_shown := false
      processing_complete := false }
  else
    match ext.download_result with
    | .error e =>
        { fs := cleanup_cookie (staged_cookie_path inp) (staged_fs inp fs0)
          errors := ["Error while downloading: " ++ e]
          downloader_invoked := true
          transcriber_invoked := false
          transcript := ""
          transcript_shown := false
          processing_complete := false }
    | .ok _ =>
        if inp.do_transcribe then
          match ext.transcribe_result with
          | .error e =>
              { fs := cleanup_cookie (staged_cookie_path inp)
                  ((staged_fs inp fs0).write mp3_file)
                errors := ["Error while transcribing: " ++ e]
                downloader_invoked := true
                transcriber_invoked := true
                transcript := ""
                transcript_shown := false
                processing_complete := false }
          | .ok segs =>
              finish_run inp (staged_cookie_path inp) mp3_file
                ((staged_fs inp fs0).write mp3_file)
                (assemble_transcript inp.include_timestamps segs) true
        else
          finish_run inp (staged_cookie_path inp) mp3_file
            ((staged_fs inp fs0).write mp3_file) "" false

/-! ## Filesystem helper lemmas -/

theorem FS.existsFile_write_self (fs : FS) (p : String) :
    (fs.write p).existsFile p = true := by
  by_cases h : p ∈ fs.files <;> simp [FS.write, FS.existsFile, h]

theorem FS.existsFile_write_of (fs : FS) (p q : String) (h : fs.existsFile q = true) :
    (fs.write p).existsFile q = true := by
  by_cases hp : p ∈ fs.files <;> simp_all [FS.write, FS.existsFile, List.mem_cons]

theorem FS.existsFile_removeFile_ne (fs : FS) (p q : String) (h : q ≠ p) :
    (fs.removeFile p).existsFile q = fs.existsFile q := by
  simp [FS.removeFile, FS.existsFile, List.mem_erase_of_ne h]

theorem FS.existsFile_removeFile_self (fs : FS) (p : String) (h : fs.files.Nodup) :
    (fs.removeFile p).existsFile p = false := by
  simp [FS.removeFile, FS.existsFile, h.not_mem_erase]

theorem FS.nodup_write (fs : FS) (p : String) (h : fs.files.Nodup) :
    (fs.write p).files.Nodup := by
  by_cases hp : p ∈ fs.files <;> simp_all [FS.write]

theorem FS.nodup_removeFile (fs : FS) (p : String) (h : fs.files.Nodup) :
    (fs.removeFile p).files.Nodup := by
  simpa [FS.removeFile] using h.erase p

theorem FS.removed_write (fs : FS) (p : String) :
    (fs.write p).removed = fs.removed := by
  by_cases hp : p ∈ fs.files <;> simp [FS.write, hp]

theorem FS.count_removed_removeFile_self (fs : FS) (p : String) :
    ((fs.removeFile p).removed.count p) = fs.removed.count p + 1 := by
  simp [FS.removeFile]

theorem FS.count_removed_removeFile_ne (fs : FS) (p q : String) (h : q ≠ p) :
    ((fs.removeFile p).removed.count q) = fs.removed.count q := by
  simp [FS.removeFile, List.count_append, List.count_singleton, h]

/-! ## Claims about the progress hook -/

/-- C2, counterexample: the hook keeps no high-water mark, so a regressing
event stream makes the surfaced percentage regress — after reporting 50
(100 of 200 bytes) a later event for 50 of 200 bytes reports 25. -/
theorem progress_report_regresses :
    reported [⟨.downloading, 200, 0, 100⟩, ⟨.downloading, 200, 0, 50⟩] = [50, 25]
    ∧ ¬ List.Pairwise (· ≤ ·)
        (reported [⟨.downloading, 200, 0, 100⟩, ⟨.downloading, 200, 0, 50⟩]) := by
  constructor
  · rfl
  · decide

/-- C2, amended: each surfaced percentage is a function of its own event only
(no high-water-mark tracking), so the reported sequence is non-decreasing
exactly when the event stream's own per-event percentages are; monotonicity is
not enforced against a regressing stream. -/
theorem progress_monotone_of_monotone_events (events : List ProgressEvent)
    (h : List.Pairwise (· ≤ ·) (events.flatMap event_emissions)) :
    reported events = events.flatMap event_emissions
    ∧ List.Pairwise (· ≤ ·) (reported events) := by
  refine ⟨reported_eq_flatMap events, ?_⟩
  rw [reported_eq_flatMap events]
  exact h

theorem progress_monotone_of_monotone_events_witness :
    reported [⟨.downloading, 200, 0, 100⟩, ⟨.finished, 0, 0, 0⟩]
        = [⟨.downloading, 200, 0, 100⟩, ⟨.finished, 0, 0, 0⟩].flatMap event_emissions
    ∧ List.Pairwise (· ≤ ·)
        (reported [⟨.downloading, 200, 0, 100⟩, ⟨.finished, 0, 0, 0⟩]) :=
  progress_monotone_of_monotone_events
    [⟨.downloading, 200, 0, 100⟩, ⟨.finished, 0, 0, 0⟩] (by decide)

/-- C3: on a `downloading` event with positive resolved total, the value
surfaced to the progress bar is `floor(downloaded / total * 100)` clamped to
`[0, 100]` (the natural division `downloaded * 100 / total` is that floor);
on a `finished` event the surfaced value is 100 whatever the prior state. -/
theorem downloading_percentage_clamped_floor (ui : UIState) (d : ProgressEvent) :
    (d.status = DStatus.downloading → 0 < resolved_total d →
      (download_progress_hook ui d).2
          = [min (d.downloaded_bytes * 100 / resolved_total d) 100]
      ∧ ((d.downloaded_bytes * 100 / resolved_total d : Nat) : Int)
          = ⌊((d.downloaded_bytes : ℚ) / (resolved_total d : ℚ)) * 100⌋
      ∧ min (d.downloaded_bytes * 100 / resolved_total d) 100 ≤ 100)
    ∧ (d.status = DStatus.finished → (download_progress_hook ui d).2 = [100]) := by
  constructor
  · intro hs ht
    refine ⟨?_, ?_, min_le_right _ _⟩
    · rw [hook_emissions_stateless]
      simp [event_emissions, hs, ht]
    · have : ((d.downloaded_bytes : ℚ) / (resolved_total d : ℚ)) * 100
          = ((d.downloaded_bytes * 100 : Nat) : ℚ) / ((resolved_total d : Nat) : ℚ) := by
        push_cast
        ring
      rw [this, Rat.floor_natCast_div_natCast]
      push_cast
      rfl
  · intro hs
    rw [hook_emissions_stateless]
    simp [event_emissions, hs]

theorem downloading_percentage_clamped_floor_witness :
    ((⟨.downloading, 200, 0, 250⟩ : ProgressEvent).status = DStatus.downloading →
      0 < resolved_total ⟨.downloading, 200, 0, 250⟩ →
      (download_progress_hook initUI ⟨.downloading, 200, 0, 250⟩).2
          = [min ((250 : Nat) * 100 / resolved_total ⟨.downloading, 200, 0, 250⟩) 100]
      ∧ (((250 : Nat) * 100 / resolved_total ⟨.downloading, 200, 0, 250⟩ : Nat) : Int)
          = ⌊(((250 : Nat) : ℚ) / ((resolved_total ⟨.downloading, 200, 0, 250⟩ : Nat) : ℚ)) * 100⌋
      ∧ min ((250 : Nat) * 100 / resolved_total ⟨.downloading, 200, 0, 250⟩) 100 ≤ 100)
    ∧ ((⟨.downloading, 200, 0, 250⟩ : ProgressEvent).status = DStatus.finished →
      (download_progress_hook initUI ⟨.downloading, 200, 0, 250⟩).2 = [100]) :=
  downloading_percentage_clamped_floor initUI ⟨.downloading, 200, 0, 250⟩

/-- C4, counterexample: on a `downloading` event with unknown (zero) total,
the hook surfaces nothing at all — the status placeholder stays empty, so no
phase status message is surfaced, contrary to the claim. -/
theorem unknown_total_surfaces_nothing :
    (download_progress_hook initUI ⟨.downloading, 0, 0, 5⟩).1.status = none
    ∧ (download_progress_hook initUI ⟨.downloading, 0, 0, 5⟩).2 = [] := by
  decide

/-- C4, amended: a `downloading` event whose resolved total is unknown or zero
is ignored entirely — neither a percentage update nor a status message is
surfaced (the UI state is unchanged and nothing is emitted). -/
theorem unknown_total_event_ignored (ui : UIState) (d : ProgressEvent)
    (hs : d.status = DStatus.downloading) (ht : resolved_total d = 0) :
    download_progress_hook ui d = (ui, []) := by
  cases d with
  | mk status tb tbe db =>
      cases status with
      | downloading =>
          simp only [download_progress_hook]
          rw [if_neg]
          simp only [resolved_total] at ht ⊢
          omega
      | finished => cases hs
      | other => cases hs

theorem unknown_total_event_ignored_witness :
    download_progress_hook initUI ⟨.downloading, 0, 0, 7⟩ = (initUI, []) :=
  unknown_total_event_ignored initUI ⟨.downloading, 0, 0, 7⟩ rfl rfl

/-! ## Claims about formatting and assembly -/

/-- C5: for non-negative seconds `s`, the formatter returns `"[MM:SS]"` with
`MM = ⌊s / 60⌋` and `SS = ⌊s mod 60⌋` (real modulus `pymod`), both zero-padded
to width 2; minutes do not wrap into hours, as `3600 ↦ "[60:00]"` shows. -/
theorem format_timestamp_spec :
    (∀ s : ℚ, 0 ≤ s →
      format_timestamp s = "[" ++ zfill2 ⌊s / 60⌋ ++ ":" ++ zfill2 ⌊pymod s 60⌋ ++ "]")
    ∧ format_timestamp 0 = "[00:00]"
    ∧ format_timestamp 125 = "[02:05]"
    ∧ format_timestamp 3599 = "[59:59]"
    ∧ format_timestamp 3600 = "[60:00]" := by
  have hfloor : ∀ s : ℚ, 0 ≤ s → pyint (pyfloordiv s 60) = ⌊s / 60⌋ := by
    intro s hs
    have h0 : (0 : Int) ≤ ⌊s / 60⌋ := Int.floor_nonneg.mpr (by positivity)
    have h1 : (0 : ℚ) ≤ ((⌊s / 60⌋ : Int) : ℚ) := by exact_mod_cast h0
    simp [pyint, pyfloordiv, h1, Int.floor_intCast]
  have hmod : ∀ s : ℚ, 0 ≤ s → pyint (pymod s 60) = ⌊pymod s 60⌋ := by
    intro s hs
    have hfl : ((⌊s / 60⌋ : Int) : ℚ) ≤ s / 60 := Int.floor_le _
    have h1 : (0 : ℚ) ≤ pymod s 60 := by
      simp only [pymod]
      linarith
    simp [pyint, h1]
  have main : ∀ s : ℚ, 0 ≤ s →
      format_timestamp s = "[" ++ zfill2 ⌊s / 60⌋ ++ ":" ++ zfill2 ⌊pymod s 60⌋ ++ "]" := by
    intro s hs
    rw [format_timestamp, hfloor s hs, hmod s hs]
  refine ⟨main, ?_, ?_, ?_, ?_⟩
  · rw [main 0 (by norm_num), show ⌊(0:ℚ)/60⌋ = 0 by norm_num,
      show ⌊pymod (0:ℚ) 60⌋ = 0 by norm_num [pymod]]
    decide
  · rw [main 125 (by norm_num), show ⌊(125:ℚ)/60⌋ = 2 by norm_num,
      show ⌊pymod (125:ℚ) 60⌋ = 5 by norm_num [pymod]]
    decide
  · rw [main 3599 (by norm_num), show ⌊(3599:ℚ)/60⌋ = 59 by norm_num,
      show ⌊pymod (3599:ℚ) 60⌋ = 59 by norm_num [pymod]]
    decide
  · rw [main 3600 (by norm_num), show ⌊(3600:ℚ)/60⌋ = 60 by norm_num,
      show ⌊pymod (3600:ℚ) 60⌋ = 0 by norm_num [pymod]]
    decide

theorem format_timestamp_spec_witness :
    format_timestamp 125
      = "[" ++ zfill2 ⌊(125:ℚ) / 60⌋ ++ ":" ++ zfill2 ⌊pymod 125 60⌋ ++ "]" :=
  format_timestamp_spec.1 125 (by norm_num)

/-- C6: the assembler trims each segment's text, prepends
`format_timestamp(start) + " "` exactly when `include_timestamps` is set,
joins consecutive lines with exactly one newline and no trailing newline, and
maps the empty segment list to the empty string. -/
theorem assemble_transcript_spec :
    (∀ b : Bool, assemble_transcript b [] = "")
    ∧ (∀ (b : Bool) (seg : Segment), assemble_transcript b [seg] = lineOf b seg)
    ∧ (∀ (b : Bool) (seg : Segment) (segs : List Segment), segs ≠ [] →
        assemble_transcript b (seg :: segs)
          = lineOf b seg ++ "\n" ++ assemble_transcript b segs)
    ∧ (∀ seg : Segment,
        lineOf true seg = format_timestamp seg.start ++ " " ++ pyStrip seg.text)
    ∧ (∀ seg : Segment, lineOf false seg = pyStrip seg.text) := by
  refine ⟨fun _ => rfl, fun _ _ => rfl, ?_, fun _ => rfl, fun _ => rfl⟩
  intro b seg segs hne
  cases segs with
  | nil => exact absurd rfl hne
  | cons seg2 rest => rfl

theorem assemble_transcript_spec_witness :
    assemble_transcript true [⟨5, " hi "⟩, ⟨62, "there"⟩]
      = lineOf true ⟨5, " hi "⟩ ++ "\n" ++ assemble_transcript true [⟨62, "there"⟩] :=
  assemble_transcript_spec.2.2.1 true ⟨5, " hi "⟩ [⟨62, "there"⟩] (by simp)

/-- C7: transcript assembly is deterministic — equal segment sequences and
equal options produce byte-identical output strings. -/
theorem assemble_transcript_deterministic
    (b₁ b₂ : Bool) (segs₁ segs₂ : List Segment)
    (hb : b₁ = b₂) (hs : segs₁ = segs₂) :
    assemble_transcript b₁ segs₁ = assemble_transcript b₂ segs₂ := by
  rw [hb, hs]

theorem assemble_transcript_deterministic_witness :
    assemble_transcript true [⟨0, "hello"⟩] = assemble_transcript true [⟨0, "hello"⟩] :=
  assemble_transcript_deterministic true true [⟨0, "hello"⟩] [⟨0, "hello"⟩] rfl rfl

theorem cleanup_cookie_some (fs : FS) (p : String) (he : fs.existsFile p = true) :
    cleanup_cookie (some p) fs = fs.removeFile p := by
  simp [cleanup_cookie, he]

theorem finish_run_cookie_gone (inp : RunInputs) (mp3_file : String) (fs : FS)
    (t : String) (tinv : Bool)
    (hne : mp3_file ≠ cookie_temp_path)
    (he : fs.existsFile cookie_temp_path = true)
    (hn : fs.files.Nodup) :
    (finish_run inp (some cookie_temp_path) mp3_file fs t tinv).fs.existsFile cookie_temp_path
        = false
    ∧ (finish_run inp (some cookie_temp_path) mp3_file fs t tinv).fs.removed.count
          cookie_temp_path
        = fs.removed.count cookie_temp_path + 1 := by
  dsimp only [finish_run]
  set fs1 := if !inp.save_audio && fs.existsFile mp3_file then fs.removeFile mp3_file else fs
    with hfs1
  have h1e : fs1.existsFile cookie_temp_path = true := by
    rw [hfs1]
    split
    · rw [FS.existsFile_removeFile_ne _ _ _ (Ne.symm hne)]
      exact he
    · exact he
  have h1n : fs1.files.Nodup := by
    rw [hfs1]
    split
    · exact FS.nodup_removeFile _ _ hn
    · exact hn
  have h1c : fs1.removed.count cookie_temp_path = fs.removed.count cookie_temp_path := by
    rw [hfs1]
    split
    · exact FS.count_removed_removeFile_ne _ _ _ (Ne.symm hne)
    · rfl
  rw [cleanup_cookie_some _ _ h1e]
  refine ⟨FS.existsFile_removeFile_self _ _ h1n, ?_⟩
  rw [FS.count_removed_removeFile_self, h1c]

/-- C1: whenever a run stages a cookie file (a credential payload was supplied
and the URL check passed), the cookie file is removed exactly once — on the
downloader-failure path, on the transcriber-failure path, and on the normal
completion path alike — and no longer exists after the run. -/
theorem cookie_file_removed_exactly_once
    (inp : RunInputs) (ext : Externals) (mp3_file : String) (fs0 : FS)
    (hurl : ¬ (pyStrip inp.url = ""))
    (hck : inp.cookie_file.isSome = true)
    (hne : mp3_file ≠ cookie_temp_path)
    (hnd : fs0.files.Nodup) :
    (runMain inp ext mp3_file fs0).fs.existsFile cookie_temp_path = false
    ∧ (runMain inp ext mp3_file fs0).fs.removed.count cookie_temp_path
        = fs0.removed.count cookie_temp_path + 1 := by
  obtain ⟨c, hc⟩ := Option.isSome_iff_exists.mp hck
  have h1e : (fs0.write cookie_temp_path).existsFile cookie_temp_path = true :=
    FS.existsFile_write_self fs0 cookie_temp_path
  have h1n : (fs0.write cookie_temp_path).files.Nodup := FS.nodup_write fs0 _ hnd
  have h1r : (fs0.write cookie_temp_path).removed = fs0.removed := FS.removed_write fs0 _
  have h2e : ((fs0.write cookie_temp_path).write mp3_file).existsFile cookie_temp_path = true :=
    FS.existsFile_write_of _ mp3_file _ h1e
  have h2n : ((fs0.write cookie_temp_path).write mp3_file).files.Nodup :=
    FS.nodup_write _ _ h1n
  have h2r : ((fs0.write cookie_temp_path).write mp3_file).removed = fs0.removed :=
    (FS.removed_write _ _).trans h1r
  unfold runMain
  rw [if_neg hurl]
  cases hdl : ext.download_result with
  | error e =>
      simp only [staged_cookie_path, staged_fs, hc, Option.map_some']
      rw [cleanup_cookie_some _ _ h1e]
      refine ⟨FS.existsFile_removeFile_self _ _ h1n, ?_⟩
      show ((fs0.write cookie_temp_path).removeFile cookie_temp_path).removed.count
          cookie_temp_path = fs0.removed.count cookie_temp_path + 1
      rw [FS.count_removed_removeFile_self, h1r]
  | ok u =>
      cases hdt : inp.do_transcribe with
      | false =>
          simp only [Bool.false_eq_true, if_false, staged_cookie_path, staged_fs, hc,
            Option.map_some']
          have h := finish_run_cookie_gone inp mp3_file
            ((fs0.write cookie_temp_path).write mp3_file) "" false hne h2e h2n
          rw [h2r] at h
          exact h
      | true =>
          simp only [eq_self_iff_true, if_true, staged_cookie_path, staged_fs, hc,
            Option.map_some']
          cases htr : ext.transcribe_result with
          | error e =>
              rw [cleanup_cookie_some _ _ h2e]
              refine ⟨FS.existsFile_removeFile_self _ _ h2n, ?_⟩
              show (((fs0.write cookie_temp_path).write mp3_file).removeFile
                  cookie_temp_path).removed.count cookie_temp_path
                  = fs0.removed.count cookie_temp_path + 1
              rw [FS.count_removed_removeFile_self, h2r]
          | ok segs =>
              have h := finish_run_cookie_gone inp mp3_file
                ((fs0.write cookie_temp_path).write mp3_file)
                (assemble_transcript inp.include_timestamps segs) true hne h2e h2n
              rw [h2r] at h
              exact h

theorem cookie_file_removed_exactly_once_witness :
    (runMain ⟨"https://example.com/v", some "cookiedata", false, true, true⟩
        ⟨Except.ok (), Except.ok [⟨0, "hello"⟩]⟩ "downloads/video.mp3"
        ⟨[], []⟩).fs.existsFile cookie_temp_path = false
    ∧ (runMain ⟨"https://example.com/v", some "cookiedata", false, true, true⟩
        ⟨Except.ok (), Except.ok [⟨0, "hello"⟩]⟩ "downloads/video.mp3"
        ⟨[], []⟩).fs.removed.count cookie_temp_path
        = (⟨[], []⟩ : FS).removed.count cookie_temp_path + 1 :=
  cookie_file_removed_exactly_once
    ⟨"https://example.com/v", some "cookiedata", false, true, true⟩
    ⟨Except.ok (), Except.ok [⟨0, "hello"⟩]⟩ "downloads/video.mp3" ⟨[], []⟩
    (by decide) (by decide) (by decide) (by decide)

/-- C8, counterexample: a malformed but non-empty URL ("not a url") passes the
`url.strip()` check, so the external downloader is invoked for it; the run
fails only afterwards with a download error, not a pre-validation rejection. -/
theorem malformed_url_reaches_downloader :
    (runMain ⟨"not a url", none, true, false, false⟩
        ⟨Except.error "boom", Except.ok []⟩ "downloads/x.mp3"
        ⟨[], []⟩).downloader_invoked = true
    ∧ (runMain ⟨"not a url", none, true, false, false⟩
        ⟨Except.error "boom", Except.ok []⟩ "downloads/x.mp3"
        ⟨[], []⟩).errors = ["Error while downloading: boom"] := by
  constructor <;> rfl

/-- C8, amended: only empty or whitespace-only URL input is rejected before
any external call — the run surfaces a validation error, invokes neither the
downloader nor the transcriber, and leaves the filesystem untouched. A
malformed non-empty URL is not pre-validated; it is passed to the downloader. -/
theorem empty_url_rejected_before_external_calls
    (inp : RunInputs) (ext : Externals) (mp3_file : String) (fs0 : FS)
    (hurl : pyStrip inp.url = "") :
    (runMain inp ext mp3_file fs0).downloader_invoked = false
    ∧ (runMain inp ext mp3_file fs0).transcriber_invoked = false
    ∧ (runMain inp ext mp3_file fs0).errors = ["Please enter a valid video URL."]
    ∧ (runMain inp ext mp3_file fs0).processing_complete = false
    ∧ (runMain inp ext mp3_file fs0).fs = fs0 := by
  unfold runMain
  rw [if_pos hurl]
  exact ⟨rfl, rfl, rfl, rfl, rfl⟩

theorem empty_url_rejected_before_external_calls_witness :
    (runMain ⟨"   ", none, true, true, true⟩ ⟨Except.ok (), Except.ok []⟩
        "downloads/x.mp3" ⟨[], []⟩).downloader_invoked = false
    ∧ (runMain ⟨"   ", none, true, true, true⟩ ⟨Except.ok (), Except.ok []⟩
        "downloads/x.mp3" ⟨[], []⟩).transcriber_invoked = false
    ∧ (runMain ⟨"   ", none, true, true, true⟩ ⟨Except.ok (), Except.ok []⟩
        "downloads/x.mp3" ⟨[], []⟩).errors = ["Please enter a valid video URL."]
    ∧ (runMain ⟨"   ", none, true, true, true⟩ ⟨Except.ok (), Except.ok []⟩
        "downloads/x.mp3" ⟨[], []⟩).processing_complete = false
    ∧ (runMain ⟨"   ", none, true, true, true⟩ ⟨Except.ok (), Except.ok []⟩
        "downloads/x.mp3" ⟨[], []⟩).fs = ⟨[], []⟩ :=
  empty_url_rejected_before_external_calls ⟨"   ", none, true, true, true⟩
    ⟨Except.ok (), Except.ok []⟩ "downloads/x.mp3" ⟨[], []⟩ (by decide)

/-- C9: when the transcriber fails, the downloaded audio artifact stays on
disk and is never passed to `os.remove`, whatever the "save audio" option —
the audio-deletion step runs only on the successful-completion path. -/
theorem audio_preserved_on_transcribe_failure
    (inp : RunInputs) (ext : Externals) (mp3_file : String) (fs0 : FS) (e : String)
    (hurl : ¬ (pyStrip inp.url = ""))
    (hdl : ext.download_result = Except.ok ())
    (hdt : inp.do_transcribe = true)
    (htr : ext.transcribe_result = Except.error e)
    (hne : mp3_file ≠ cookie_temp_path) :
    (runMain inp ext mp3_file fs0).fs.existsFile mp3_file = true
    ∧ (runMain inp ext mp3_file fs0).fs.removed.count mp3_file
        = fs0.removed.count mp3_file := by
  unfold runMain
  rw [if_neg hurl]
  rw [hdl, hdt, htr]
  simp only [eq_self_iff_true, if_true]
  cases hcf : inp.cookie_file with
  | none =>
      simp only [staged_cookie_path, staged_fs, hcf, Option.map_none', cleanup_cookie]
      refine ⟨FS.existsFile_write_self _ _, ?_⟩
      show (fs0.write mp3_file).removed.count mp3_file = fs0.removed.count mp3_file
      rw [FS.removed_write]
  | some c =>
      simp only [staged_cookie_path, staged_fs, hcf, Option.map_some']
      have hex : ((fs0.write cookie_temp_path).write mp3_file).existsFile cookie_temp_path
          = true :=
        FS.existsFile_write_of _ mp3_file _ (FS.existsFile_write_self fs0 _)
      rw [cleanup_cookie_some _ _ hex]
      constructor
      · rw [FS.existsFile_removeFile_ne _ _ _ hne]
        exact FS.existsFile_write_self _ _
      · rw [FS.count_removed_removeFile_ne _ _ _ hne]
        show ((fs0.write cookie_temp_path).write mp3_file).removed.count mp3_file
            = fs0.removed.count mp3_file
        rw [FS.removed_write, FS.removed_write]

theorem audio_preserved_on_transcribe_failure_witness :
    (runMain ⟨"https://example.com/v", some "cookiedata", false, true, false⟩
        ⟨Except.ok (), Except.error "model crash"⟩ "downloads/video.mp3"
        ⟨[], []⟩).fs.existsFile "downloads/video.mp3" = true
    ∧ (runMain ⟨"https://example.com/v", some "cookiedata", false, true, false⟩
        ⟨Except.ok (), Except.error "model crash"⟩ "downloads/video.mp3"
        ⟨[], []⟩).fs.removed.count "downloads/video.mp3"
        = (⟨[], []⟩ : FS).removed.count "downloads/video.mp3" :=
  audio_preserved_on_transcribe_failure
    ⟨"https://example.com/v", some "cookiedata", false, true, false⟩
    ⟨Except.ok (), Except.error "model crash"⟩ "downloads/video.mp3" ⟨[], []⟩
    "model crash" (by decide) rfl rfl rfl (by decide)

/-- C10: with the transcribe toggle off and a successful download, the run
reaches "Processing complete!" with an empty transcript, the transcriber is
never invoked, and neither the transcript area nor the download button is
rendered. -/
theorem transcribe_off_empty_transcript_hidden
    (inp : RunInputs) (ext : Externals) (mp3_file : String) (fs0 : FS)
    (hurl : ¬ (pyStrip inp.url = ""))
    (hdl : ext.download_result = Except.ok ())
    (hdt : inp.do_transcribe = false) :
    (runMain inp ext mp3_file fs0).transcript = ""
    ∧ (runMain inp ext mp3_file fs0).transcript_shown = false
    ∧ (runMain inp ext mp3_file fs0).transcriber_invoked = false
    ∧ (runMain inp ext mp3_file fs0).processing_complete = true := by
  unfold runMain
  rw [if_neg hurl]
  rw [hdl, hdt]
  simp [finish_run]

theorem transcribe_off_empty_transcript_hidden_witness :
    (runMain ⟨"https://example.com/v", none, true, false, true⟩
        ⟨Except.ok (), Except.ok [⟨0, "hello"⟩]⟩ "downloads/video.mp3"
        ⟨[], []⟩).transcript = ""
    ∧ (runMain ⟨"https://example.com/v", none, true, false, true⟩
        ⟨Except.ok (), Except.ok [⟨0, "hello"⟩]⟩ "downloads/video.mp3"
        ⟨[], []⟩).transcript_shown = false
    ∧ (runMain ⟨"https://example.com/v", none, true, false, true⟩
        ⟨Except.ok (), Except.ok [⟨0, "hello"⟩]⟩ "downloads/video.mp3"
        ⟨[], []⟩).transcriber_invoked = false
    ∧ (runMain ⟨"https://example.com/v", none, true, false, true⟩
        ⟨Except.ok (), Except.ok [⟨0, "hello"⟩]⟩ "downloads/video.mp3"
        ⟨[], []⟩).processing_complete = true :=
  transcribe_off_empty_transcript_hidden
    ⟨"https://example.com/v", none, true, false, true⟩
    ⟨Except.ok (), Except.ok [⟨0, "hello"⟩]⟩ "downloads/video.mp3" ⟨[], []⟩
    (by decide) rfl rfl
